import Mathlib

/-!
Shallow embedding of the Huntington News Catcher ingestion pipeline
(backend/app/services: geolocation.py, ai_processor.py, rss_service.py,
news_scraper.py) and proofs of the behavioural claims about it.

Modelling conventions:
* Python floats are modelled as exact rationals; the only float comparison
  the claims touch is the Jaccard threshold, where the compared quantities
  are ratios of small integers, for which the float comparison agrees with
  the exact rational one.
* External library calls (feedparser, requests, BeautifulSoup, the AI
  providers, the geocoding HTTP endpoints, Python float parsing) are
  oracles: they enter the definitions as explicit arguments holding the
  value the library returned on that call, including a constructor for a
  raised exception where the code catches one.
* Wall-clock timestamps are elided from news records; the scrape-log end
  timestamp, which claim C2 is about, is modelled by an explicit clock
  argument to the log update.
* Python dictionaries produced by the AI provider are records of optional
  fields, so absent keys and falsy values are representable.
-/

/-- Python slicing s[:n] on a string (by code point). -/
def pyTruncate (s : String) (n : Nat) : String := ⟨s.data.take n⟩

/-- Python str.lower(), working on the code-point list so that it reduces
in the kernel. -/
def pyLower (s : String) : String := ⟨s.data.map Char.toLower⟩

/-- Python str.strip(): drop leading and trailing whitespace. -/
def pyStrip (s : String) : String :=
  ⟨((s.data.dropWhile Char.isWhitespace).reverse.dropWhile Char.isWhitespace).reverse⟩

/-- Python str.startswith. -/
def pyStartsWith (s pre : String) : Bool := pre.data.isPrefixOf s.data

/-- Split a character list at every separator character; empty groups are
kept, as Python str.split(sep) keeps them. -/
def splitOnPred (p : Char → Bool) : List Char → List (List Char)
  | [] => [[]]
  | c :: cs =>
      match splitOnPred p cs with
      | [] => [[]]
      | g :: gs => if p c then [] :: g :: gs else (c :: g) :: gs

/-- Contiguous sublist check, used to model the str in str operator. -/
def hasSubList (pat : List Char) : List Char → Bool
  | [] => pat.isEmpty
  | c :: rest => pat.isPrefixOf (c :: rest) || hasSubList pat rest

/-- Python substring containment: pat in s. -/
def containsSub (s pat : String) : Bool := hasSubList pat.toList s.toList

theorem pyTruncate_length_le (s : String) (n : Nat) : (pyTruncate s n).length ≤ n := by
  show (s.data.take n).length ≤ n
  simp [List.length_take]


/-- Python area.replace(", NY", "") for the fixed pattern, scanning left
to right as str.replace does. -/
def removeCommaNY : List Char → List Char
  | ',' :: ' ' :: 'N' :: 'Y' :: rest => removeCommaNY rest
  | c :: rest => c :: removeCommaNY rest
  | [] => []

/-- Truthiness of an optional Python string: present and non-empty. -/
def truthyStr : Option String → Bool
  | some s => s ≠ ""
  | none => false

/-- models.NewsItem as constructed by the pipeline: the arguments handed to
the SQLAlchemy constructor (wall-clock columns elided). latitude and
longitude are optional because the constructor accepts None. -/
structure NewsItem where
  title : String
  headline : Option String := none
  description : String := ""
  summary : String := ""
  category : String
  latitude : Option ℚ
  longitude : Option ℚ
  source_url : String := ""
  location : Option String := none
  source_name : Option String := none
  confidence_score : ℚ := 1/2
  deriving Repr, DecidableEq

/-! ## geolocation.py: Geolocator -/

/-- One result item of the Nominatim search endpoint: coordinates plus the
state entry of its address details (address.get("state", "")). -/
structure NomItem where
  lat : ℚ
  lon : ℚ
  state : String
  deriving Repr, DecidableEq

/-- Outcome of one HTTP round trip to Nominatim: a raised exception or the
parsed JSON list. -/
inductive NomResponse where
  | err
  | items (xs : List NomItem)
  deriving Repr, DecidableEq

/-- One address component of a Google geocoding result. -/
structure GoogleComponent where
  types : List String
  short_name : String
  deriving Repr, DecidableEq

/-- One result of the Google geocoding endpoint. -/
structure GoogleItem where
  lat : ℚ
  lng : ℚ
  address_components : List GoogleComponent
  deriving Repr, DecidableEq

/-- Outcome of one HTTP round trip to the Google geocoding API. -/
inductive GoogleResponse where
  | err
  | resp (status : String) (results : List GoogleItem)
  deriving Repr, DecidableEq

/-- Mutable state of a Geolocator instance: the location cache (an
association list keyed by lowercased text, newest entry first) and the
number of provider round trips performed so far; each round trip first
waits on the rate limiter, so providerCalls also counts rate-limit waits. -/
structure GeoState where
  cache : List (String × ℚ × ℚ)
  providerCalls : Nat
  deriving Repr, DecidableEq

/-- Lookup in the location cache. -/
def lookupCache (cache : List (String × ℚ × ℚ)) (key : String) : Option (ℚ × ℚ) :=
  (cache.find? (fun e => e.1 == key)).map (fun e => e.2)

/-- self.huntington_area_locations. -/
def huntington_area_locations : List String :=
  ["Huntington, NY", "Huntington Station, NY", "Cold Spring Harbor, NY",
   "Northport, NY", "Melville, NY", "East Northport, NY", "Centerport, NY",
   "Lloyd Harbor, NY", "Greenlawn, NY", "Dix Hills, NY", "Commack, NY",
   "Elwood, NY"]

/-- Geolocator.is_huntington_area. -/
def is_huntington_area (location_text : String) : Bool :=
  if location_text = "" then false
  else
    let lt := pyLower location_text
    (huntington_area_locations.any (fun area =>
       let areaLower := pyLower area
       let areaWithoutNy := pyLower ⟨removeCommaNY area.data⟩
       lt == areaLower || lt == areaWithoutNy ||
       containsSub areaLower lt || containsSub lt areaWithoutNy))
    || containsSub lt "huntington"

/-- The query-biasing step shared by both provider paths: append a
Huntington disambiguator unless the text already carries regional context. -/
def biasQuery (location_text : String) (force_hunt_area : Bool) : String :=
  if force_hunt_area && !is_huntington_area location_text
     && !containsSub (pyLower location_text) "long island"
     && !containsSub (pyLower location_text) "new york"
     && !containsSub (pyLower location_text) "ny"
  then location_text ++ " near Huntington, NY"
  else location_text

/-- Result of one geocoding call: the optional coordinates and the updated
instance state. -/
structure GeoResult where
  coords : Option (ℚ × ℚ)
  state : GeoState
  deriving Repr, DecidableEq

/-- Geolocator._geocode_with_nominatim. The provider oracle maps the query
string actually sent to the response received. A raised exception inside
the try block yields None; the rate limiter runs before the request, so the
call counter is bumped in every case. Only a result whose address state is
New York is cached; the first-result fallback is returned uncached. -/
def geocode_with_nominatim (provider : String → NomResponse) (st : GeoState)
    (location_text : String) (force_hunt_area : Bool) : GeoResult :=
  let st := { st with providerCalls := st.providerCalls + 1 }
  let query := biasQuery location_text force_hunt_area
  match provider query with
  | .err => { coords := none, state := st }
  | .items [] => { coords := none, state := st }
  | .items (x :: xs) =>
      match (x :: xs).find? (fun item => item.state == "New York") with
      | some item =>
          { coords := some (item.lat, item.lon),
            state := { st with
              cache := (pyLower location_text, (item.lat, item.lon)) :: st.cache } }
      | none => { coords := some (x.lat, x.lon), state := st }

/-- The in_ny check of _geocode_with_google: some address component is an
administrative_area_level_1 with short name NY. -/
def googleInNY (r : GoogleItem) : Bool :=
  r.address_components.any (fun comp =>
    comp.types.contains "administrative_area_level_1" && comp.short_name == "NY")

/-- Geolocator._geocode_with_google. Caches only when the first result has
an administrative_area_level_1 component with short name NY. -/
def geocode_with_google (provider : String → GoogleResponse) (st : GeoState)
    (location_text : String) (force_hunt_area : Bool) : GeoResult :=
  let st := { st with providerCalls := st.providerCalls + 1 }
  let query := biasQuery location_text force_hunt_area
  match provider query with
  | .err => { coords := none, state := st }
  | .resp status results =>
      if status = "OK" ∧ results ≠ [] then
        match results with
        | [] => { coords := none, state := st }
        | r :: _ =>
            let coords := (r.lat, r.lng)
            let in_ny := googleInNY r
            if in_ny then
              { coords := some coords,
                state := { st with cache := (pyLower location_text, coords) :: st.cache } }
            else
              { coords := some coords, state := st }
      else { coords := none, state := st }

/-- Geolocator.geocode: empty-input fast path, cache lookup, then exactly
one provider (Google when a key is configured, else Nominatim). -/
def geocode (googleProvider : String → GoogleResponse) (nomProvider : String → NomResponse)
    (google_api_key : Option String) (st : GeoState) (location_text : String) : GeoResult :=
  if location_text = "" ∨ pyStrip location_text = "" then { coords := none, state := st }
  else
    match lookupCache st.cache (pyLower location_text) with
    | some coords => { coords := some coords, state := st }
    | none =>
        match google_api_key with
        | some _ => geocode_with_google googleProvider st location_text true
        | none => geocode_with_nominatim nomProvider st location_text true

/-! ## ai_processor.py: AIProcessor -/

/-- The dictionary shape returned by AIProcessor.extract_information: a
Python dict whose keys may be absent (json.loads output) or are the fixed
keys of the handmade results. -/
structure ExtractionResult where
  title : Option String := none
  headline : Option String := none
  description : Option String := none
  summary : Option String := none
  category : Option String := none
  location : Option String := none
  confidence_score : Option ℚ := none
  excluded_reason : Option String := none
  source_url : Option String := none
  error : Option String := none
  deriving Repr, DecidableEq

/-- What one provider round trip produced, as seen by the response
handler: a raised exception, response text that json.loads accepted
(already decoded into the dict it denotes), or response text that failed
JSON decoding (given as the list of its lines, i.e. text.strip time the
newline split). -/
inductive AiOutcome where
  | raise
  | json (r : ExtractionResult)
  | text (lines : List String)
  deriving Repr, DecidableEq

/-- AIProcessor._create_empty_result. -/
def create_empty_result : ExtractionResult :=
  { title := some "", headline := some "", description := some "",
    summary := some "", category := some "News", location := some "",
    confidence_score := some 0, error := some "Failed to process content" }

/-- The list of category values accepted by the line-prefix fallback. -/
def valid_categories : List String := ["News", "Business", "Cause", "Event", "Crime & Safety"]

/-- Python line.split(":", 1)[1]: everything after the first colon. The
callers guard with a startswith check whose pattern contains a colon, so
the index is always in range. -/
def afterColon (line : String) : String :=
  ⟨(line.toList.dropWhile (fun c => c ≠ ':')).drop 1⟩

/-- One loop iteration of AIProcessor._extract_structured_data. parseFloat
is the oracle for the Python float() parser on the confidence line. -/
def structuredStep (parseFloat : String → Option ℚ) (r : ExtractionResult)
    (line0 : String) : ExtractionResult :=
  let line := pyStrip line0
  if pyStartsWith line "Title:" || pyStartsWith line "title:" then
    { r with title := some (pyStrip (afterColon line)) }
  else if pyStartsWith line "Headline:" || pyStartsWith line "headline:" then
    { r with headline := some (pyStrip (afterColon line)) }
  else if pyStartsWith line "Description:" || pyStartsWith line "description:" then
    { r with description := some (pyStrip (afterColon line)) }
  else if pyStartsWith line "Summary:" || pyStartsWith line "summary:" then
    { r with summary := some (pyStrip (afterColon line)) }
  else if pyStartsWith line "Category:" || pyStartsWith line "category:" then
    let category := pyStrip (afterColon line)
    { r with category := some (if valid_categories.contains category then category else "News") }
  else if pyStartsWith line "Location:" || pyStartsWith line "location:" then
    { r with location := some (pyStrip (afterColon line)) }
  else if pyStartsWith line "Confidence:" || pyStartsWith line "confidence:" then
    match parseFloat (pyStrip (afterColon line)) with
    | some score => { r with confidence_score := some (min (max score 0) 1) }
    | none => r
  else r

/-- AIProcessor._extract_structured_data: the line-prefix fallback applied
when the provider response is not valid JSON. -/
def extract_structured_data (parseFloat : String → Option ℚ)
    (lines : List String) (src_url : String) : ExtractionResult :=
  let init : ExtractionResult :=
    { title := some "", headline := some "", description := some "",
      summary := some "", category := some "News", location := some "",
      confidence_score := some (1/2), source_url := some src_url }
  lines.foldl (structuredStep parseFloat) init

/-- The shared response handling of AIProcessor._process_with_openai and
AIProcessor._process_with_claude: a successfully decoded JSON body is
returned as-is; a decode failure goes to the line-prefix fallback; a
raised exception yields the empty result. -/
def process_with_provider (parseFloat : String → Option ℚ)
    (outcome : AiOutcome) (src_url : String) : ExtractionResult :=
  match outcome with
  | .raise => create_empty_result
  | .json r => r
  | .text lines => extract_structured_data parseFloat lines src_url

/-- AIProcessor._basic_extraction. -/
def basic_extraction (text src_url : String) : ExtractionResult :=
  let lines := (((splitOnPred (fun c => c = Char.ofNat 10) text.data).map
      (fun g => pyStrip ⟨g⟩)).filter (fun l => l ≠ ""))
  let title := match lines with
    | t :: _ => t
    | [] => pyTruncate text 50
  { title := some title, headline := some "",
    description := some (if text.length > 500 then pyTruncate text 500 else text),
    summary := some (if text.length > 200 then pyTruncate text 200 else text),
    category := some "News", location := some "",
    confidence_score := some (3/10), source_url := some src_url }

/-- AIProcessor.extract_information: empty text short-circuits; otherwise
OpenAI if configured, else Anthropic, else the basic extraction. The
provider outcome is the oracle for the one provider round trip. -/
def extract_information (use_openai use_anthropic : Bool)
    (parseFloat : String → Option ℚ) (text : String) (src_url : String)
    (outcome : AiOutcome) : ExtractionResult :=
  if text = "" then create_empty_result
  else if use_openai then process_with_provider parseFloat outcome src_url
  else if use_anthropic then process_with_provider parseFloat outcome src_url
  else basic_extraction text src_url

/-! ## news_scraper.py: NewsScraper.run_scrape and the scrape log -/

/-- models.ScrapeLog as mutated by NewsScraper._update_log (wall-clock
start column elided; the end timestamp is a clock value). -/
structure ScrapeLogRow where
  status : String
  total_items : Nat
  successful_items : Nat
  error_items : Nat
  log_details : String
  end_time : Option Nat
  deriving Repr, DecidableEq

/-- NewsScraper._update_log on a found log row: copies the counters and
details, and sets the end timestamp to the current clock exactly when the
written status is one of the two terminal values. -/
def update_log (log : ScrapeLogRow) (now : Nat) (status : String)
    (total successful errors : Nat) (details : String) : ScrapeLogRow :=
  { log with
    status := status
    total_items := total
    successful_items := successful
    error_items := errors
    log_details := details
    end_time :=
      if status = "completed" ∨ status = "completed_with_errors" then some now
      else log.end_time }

/-- What processing one source did, as seen by run_scrape: the scrape
coroutine returned an item list, or it raised an exception whose str() is
msg. -/
inductive SourceOutcome where
  | ok (items : List NewsItem)
  | exn (msg : String)
  deriving Repr, DecidableEq

/-- The in-run counters and the log trail accumulated by run_scrape. -/
structure RunState where
  successful : Nat
  errors : Nat
  log_details : List String
  deriving Repr, DecidableEq

/-- The body of the per-source loop of run_scrape: append the Processing
line, then on a returned non-empty list count a success, on a returned
empty list count an error with a No-items line, and on an exception count
an error with the error line holding str(e) truncated to 200 characters. -/
def sourceStep (rs : RunState) (src : String × SourceOutcome) : RunState :=
  match src.2 with
  | .ok items =>
      if items.length ≠ 0 then
        { rs with
          successful := rs.successful + 1
          log_details := rs.log_details ++
            ["Processing: " ++ src.1,
             "✓ " ++ src.1 ++ ": Found " ++ toString items.length ++ " items"] }
      else
        { rs with
          errors := rs.errors + 1
          log_details := rs.log_details ++
            ["Processing: " ++ src.1, "✗ " ++ src.1 ++ ": No items found"] }
  | .exn msg =>
      { rs with
        errors := rs.errors + 1
        log_details := rs.log_details ++
          ["Processing: " ++ src.1,
           "✗ " ++ src.1 ++ ": Error - " ++ pyTruncate msg 200] }

/-- One call of _update_log, with the arguments run_scrape passes. -/
structure UpdateCall where
  status : String
  total : Nat
  successful : Nat
  errors : Nat
  details : String
  deriving Repr, DecidableEq

/-- The periodic in_progress update issued after each source completes. -/
def interUpdates (total : Nat) : RunState → List (String × SourceOutcome) → List UpdateCall
  | _, [] => []
  | rs, s :: rest =>
      let rs2 := sourceStep rs s
      ⟨"in_progress", total, rs2.successful, rs2.errors,
        String.intercalate "\n" rs2.log_details⟩ :: interUpdates total rs2 rest

/-- NewsScraper.run_scrape as the sequence of _update_log calls it issues:
the no-sources early return, or the initial in_progress update, one
in_progress update per source, and the terminal update whose status is
completed exactly when the error counter is zero. -/
def run_scrape (sources : List (String × SourceOutcome)) : List UpdateCall :=
  if sources = [] then
    [⟨"completed", 0, 0, 0, "No active data sources found"⟩]
  else
    let total := sources.length
    let final := sources.foldl sourceStep ⟨0, 0, []⟩
    let status := if final.errors = 0 then "completed" else "completed_with_errors"
    (⟨"in_progress", total, 0, 0, "Scraping in progress"⟩ ::
      interUpdates total ⟨0, 0, []⟩ sources) ++
    [⟨status, total, final.successful, final.errors,
      String.intercalate "\n" final.log_details⟩]

/-! ## news_scraper.py: the three guarded persistence paths -/

/-- One RSS feed entry as _scrape_rss sees it after the library calls:
title, link and summary fields plus the markup-stripped content text. -/
structure RssEntry where
  title : String
  link : String
  summary : String
  contentText : String
  deriving Repr, DecidableEq

/-- The per-entry body of NewsScraper._scrape_rss: skip on a truthy
excluded_reason; geocode the extracted location only when truthy; skip
when no coordinates were obtained; otherwise build the NewsItem that is
committed. extraction and geocoded are the oracles for the AI call on the
assembled text and the geolocator call on the extracted location. -/
def scrapeRssEntry (source_category : String) (e : RssEntry)
    (extraction : ExtractionResult) (geocoded : Option (ℚ × ℚ)) : Option NewsItem :=
  if truthyStr extraction.excluded_reason then none
  else
    let coords := if truthyStr extraction.location then geocoded else none
    match coords with
    | none => none
    | some (lat, lng) =>
        some { title := pyTruncate (extraction.title.getD e.title) 255
               headline :=
                 if truthyStr extraction.headline then
                   some (pyTruncate (extraction.headline.getD "") 255)
                 else none
               description := extraction.description.getD e.contentText
               summary := extraction.summary.getD e.summary
               category := extraction.category.getD source_category
               latitude := some lat
               longitude := some lng
               source_url := e.link
               confidence_score := extraction.confidence_score.getD (1/2) }

/-- NewsScraper._scrape_rss over the parsed feed: at most the 20 most
recent entries are processed; each committed item is also returned. -/
def scrape_rss (source_category : String)
    (entries : List (RssEntry × ExtractionResult × Option (ℚ × ℚ))) : List NewsItem :=
  (entries.take 20).filterMap fun e => scrapeRssEntry source_category e.1 e.2.1 e.2.2

/-- One crawled article page as _scrape_website sees it: the resolved
link, the page title, and the extracted content text (the structured
container text, or the filtered body text when none was found). -/
structure WebArticle where
  link : String
  pageTitle : String
  content : String
  deriving Repr, DecidableEq

/-- The per-article body of NewsScraper._scrape_website: same exclusion
and coordinate guards as the RSS path, with the truncated content as the
description and summary defaults. -/
def scrapeWebsiteArticle (source_category : String) (a : WebArticle)
    (extraction : ExtractionResult) (geocoded : Option (ℚ × ℚ)) : Option NewsItem :=
  if truthyStr extraction.excluded_reason then none
  else
    let coords := if truthyStr extraction.location then geocoded else none
    match coords with
    | none => none
    | some (lat, lng) =>
        some { title := pyTruncate (extraction.title.getD a.pageTitle) 255
               headline :=
                 if truthyStr extraction.headline then
                   some (pyTruncate (extraction.headline.getD "") 255)
                 else none
               description := extraction.description.getD (pyTruncate a.content 1000)
               summary := extraction.summary.getD (pyTruncate a.content 200)
               category := extraction.category.getD source_category
               latitude := some lat
               longitude := some lng
               source_url := a.link
               confidence_score := extraction.confidence_score.getD (1/2) }

/-- NewsScraper._scrape_website over the collected article links: capped
at 10 articles per source. -/
def scrape_website (source_category : String)
    (articles : List (WebArticle × ExtractionResult × Option (ℚ × ℚ))) : List NewsItem :=
  (articles.take 10).filterMap fun a => scrapeWebsiteArticle source_category a.1 a.2.1 a.2.2

/-- One formatted NewsAPI article as fetch_from_newsapi consumes it
(NewsAPIService.format_for_processing output fields that are read). -/
structure ApiArticle where
  text : String
  source_url : String
  date : String
  deriving Repr, DecidableEq

/-- The per-article body of NewsScraper.fetch_from_newsapi: after the
exclusion guard, geocode the extracted location when truthy, fall back to
geocoding the requested location, and skip only when both fail. -/
def newsapiArticle (a : ApiArticle) (extraction : ExtractionResult)
    (geoFromResult geoFromLocation : Option (ℚ × ℚ)) : Option NewsItem :=
  if truthyStr extraction.excluded_reason then none
  else
    let coords := if truthyStr extraction.location then geoFromResult else none
    let coords :=
      match coords with
      | some c => some c
      | none => geoFromLocation
    match coords with
    | none => none
    | some (lat, lng) =>
        some { title := pyTruncate (extraction.title.getD "") 255
               headline :=
                 if truthyStr extraction.headline then
                   some (pyTruncate (extraction.headline.getD "") 255)
                 else none
               description := extraction.description.getD ""
               summary := extraction.summary.getD ""
               category := extraction.category.getD "News"
               latitude := some lat
               longitude := some lng
               source_url := a.source_url
               confidence_score := extraction.confidence_score.getD (1/2) }

/-- NewsScraper.fetch_from_newsapi over the formatted article list. -/
def fetch_from_newsapi
    (articles : List (ApiArticle × ExtractionResult × Option (ℚ × ℚ) × Option (ℚ × ℚ))) :
    List NewsItem :=
  articles.filterMap fun a => newsapiArticle a.1 a.2.1 a.2.2.1 a.2.2.2

/-! ## rss_service.py: RSSFeedService -/

/-- The article dictionary built by the RSSFeedService entry processors.
Every processor fills every key; latitude and longitude always hold the
floats returned by _get_location_coordinates, which is total. -/
structure RssArticle where
  title : String
  source_url : String
  summary : String
  category : String
  source_name : String
  latitude : ℚ
  longitude : ℚ
  location : String
  deriving Repr, DecidableEq

/-- Python \w for the ASCII range: alphanumeric or underscore. -/
def isWordChar (c : Char) : Bool := c.isAlphanum || c = '_'

/-- re.sub of non-word non-space characters on the lowercased title, as
_remove_duplicates simplifies titles before comparison. -/
def simpleTitle (title : String) : String :=
  ⟨(pyLower title).data.filter (fun c => isWordChar c || c.isWhitespace)⟩

/-- Python str.split() with no separator: whitespace runs, no empties,
then set() via dedup. -/
def titleWords (t : String) : List String :=
  (((splitOnPred Char.isWhitespace t.data).map (fun g => (⟨g⟩ : String))).filter (fun w => w ≠ "")).dedup

/-- Cardinality of the intersection of two word sets given as deduplicated
lists. -/
def interCard (w1 w2 : List String) : Nat :=
  (w1.filter (fun w => w2.contains w)).length

/-- Cardinality of the union of two word sets given as deduplicated
lists. -/
def unionCard (w1 w2 : List String) : Nat := (w1 ++ w2).dedup.length

/-- The Jaccard index computed by _titles_are_similar: exact rational
counterpart of the Python float division intersection / union. -/
def jaccardSimilarity (title1 title2 : String) : ℚ :=
  (interCard (titleWords title1) (titleWords title2) : ℚ) /
    (unionCard (titleWords title1) (titleWords title2) : ℚ)

/-- RSSFeedService._titles_are_similar: false when either word set is
empty, else the Jaccard index strictly above 0.6. -/
def titles_are_similar (title1 title2 : String) : Bool :=
  if (titleWords title1).length = 0 ∨ (titleWords title2).length = 0 then false
  else decide (jaccardSimilarity title1 title2 > 3/5)

/-- RSSFeedService._remove_duplicates: keep an article unless its
simplified title is similar to the simplified title of an already kept
article; the set of seen titles only grows on kept articles. -/
def remove_duplicates (articles : List RssArticle) : List RssArticle :=
  (articles.foldl
    (fun (acc : List String × List RssArticle) article =>
      let simple := simpleTitle article.title
      if acc.1.any (fun seen => titles_are_similar simple seen) then acc
      else (acc.1 ++ [simple], acc.2 ++ [article]))
    ([], [])).2

/-- What one geopy Nominatim geocode call produced, as seen by
_get_location_coordinates: a match, no match (None), or a raised
exception. -/
inductive GeopyOutcome where
  | found (lat lon : ℚ)
  | notFound
  | raise
  deriving Repr, DecidableEq

/-- The default Huntington, NY coordinates of
RSSFeedService._get_location_coordinates. -/
def rss_default_coords : ℚ × ℚ := (408676/10000, -734257/10000)

/-- The search string actually sent: a bare huntington is widened to the
Long Island form. -/
def rssSearchLocation (location : String) : String :=
  if pyLower location = pyLower "Huntington" then "Huntington, Long Island, NY" else location

/-- RSSFeedService._get_location_coordinates: cache hit first; on a miss,
one geopy call whose failure (no match or exception) falls through to the
fixed default coordinates; only a successful geocode is cached. Total: a
coordinate pair is returned on every path. -/
def get_location_coordinates (cache : List (String × ℚ × ℚ)) (location : String)
    (geopy : String → GeopyOutcome) : (ℚ × ℚ) × List (String × ℚ × ℚ) :=
  match lookupCache cache (pyLower location) with
  | some coords => (coords, cache)
  | none =>
      match geopy (rssSearchLocation location) with
      | .found lat lon => ((lat, lon), (pyLower location, (lat, lon)) :: cache)
      | .notFound => (rss_default_coords, cache)
      | .raise => (rss_default_coords, cache)

/-- One Patch.com feed entry as _process_patch_entry reads it: the title,
link, and the markup-stripped summary text. -/
structure PatchEntry where
  title : String
  link : String
  summaryText : String
  deriving Repr, DecidableEq

/-- RSSFeedService._determine_category keyword lists, in the order they
are checked. -/
def event_keywords : List String :=
  ["event", "festival", "parade", "concert", "exhibition", "show",
   "ceremony", "celebration", "workshop", "meeting", "conference",
   "gathering", "upcoming", "schedule"]

def business_keywords : List String :=
  ["business", "company", "store", "shop", "restaurant", "cafe",
   "market", "grand opening", "closing", "economic", "commercial",
   "retail", "entrepreneur", "enterprise"]

def crime_keywords : List String :=
  ["police", "crime", "arrest", "investigation", "safety", "accident",
   "crash", "fire", "emergency", "warning", "alert", "shooting", "robbery",
   "theft", "burglary", "assault", "traffic", "violation"]

def cause_keywords : List String :=
  ["volunteer", "charity", "donation", "fundraiser", "nonprofit",
   "community service", "campaign", "awareness", "support", "cause",
   "drive", "helping", "benefit"]

/-- RSSFeedService._determine_category. -/
def determine_category (title content : String) : String :=
  let combined := pyLower (title ++ " " ++ content)
  if event_keywords.any (fun k => containsSub combined k) then "Event"
  else if business_keywords.any (fun k => containsSub combined k) then "Business"
  else if crime_keywords.any (fun k => containsSub combined k) then "Crime & Safety"
  else if cause_keywords.any (fun k => containsSub combined k) then "Cause"
  else "News"

/-- RSSFeedService._process_patch_entry: category from the keyword
classifier, coordinates from the total _get_location_coordinates, fixed
Huntington location label. Returns the article together with the updated
geocoding cache. -/
def process_patch_entry (e : PatchEntry) (location : String)
    (cache : List (String × ℚ × ℚ)) (geopy : String → GeopyOutcome) :
    RssArticle × List (String × ℚ × ℚ) :=
  let category := determine_category e.title e.summaryText
  let r := get_location_coordinates cache location geopy
  ({ title := e.title
     source_url := e.link
     summary := e.summaryText
     category := category
     source_name := "Patch.com"
     latitude := r.1.1
     longitude := r.1.2
     location := "Huntington, NY" }, r.2)

/-! ## news_scraper.py: fetch_from_rss_feeds and fetch_huntington_news -/

/-- The NewsItem built by fetch_from_rss_feeds from one RSS service
article dictionary: every optional key is present in those dictionaries,
so the defaults of the .get calls are never taken except for the title
reused as headline. -/
def rssArticleToItem (a : RssArticle) : NewsItem :=
  { title := a.title
    headline := some a.title
    summary := a.summary
    latitude := some a.latitude
    longitude := some a.longitude
    location := some a.location
    source_name := some a.source_name
    source_url := a.source_url
    category := a.category }

/-- NewsScraper.fetch_from_rss_feeds, after the articles were collected:
each article becomes a NewsItem and is committed unless a row with the
same title and source URL already exists; rows committed earlier in the
same loop are visible to later queries. Returns the saved items. -/
def rssSaveStep (acc : List NewsItem × List NewsItem) (a : RssArticle) :
    List NewsItem × List NewsItem :=
  if acc.1.any (fun e => e.title == (rssArticleToItem a).title &&
      e.source_url == (rssArticleToItem a).source_url) then acc
  else (acc.1 ++ [rssArticleToItem a], acc.2 ++ [rssArticleToItem a])

def fetch_from_rss_feeds (dbItems : List NewsItem) (articles : List RssArticle) :
    List NewsItem :=
  (articles.foldl rssSaveStep (dbItems, [])).2

/-- The five hard-coded fallback items of fetch_huntington_news, with the
fixed Huntington coordinates of the huntington_coords table. -/
def huntington_fallback_items : List NewsItem :=
  [{ title := "Huntington Town Board Meeting"
     description := "The Huntington Town Board will meet to discuss local infrastructure projects."
     headline := some "Local Government News"
     source_url := "https://huntingtonny.gov"
     category := "News"
     latitude := some (408676/10000)
     longitude := some (-734257/10000) },
   { title := "New Restaurant Opening in Huntington Village"
     description := "A new farm-to-table restaurant is opening next month in Huntington Village."
     headline := some "Local Business Update"
     source_url := "https://huntingtonny.gov/business"
     category := "Business"
     latitude := some (408707/10000)
     longitude := some (-734295/10000) },
   { title := "Community Cleanup Event at Huntington Harbor"
     description := "Volunteers needed for the annual harbor cleanup event this weekend."
     headline := some "Environmental Initiative"
     source_url := "https://huntingtonny.gov/events"
     category := "Causes"
     latitude := some (408954/10000)
     longitude := some (-734262/10000) },
   { title := "Summer Concert Series Announced for Heckscher Park"
     description := "The annual summer concert series lineup has been announced featuring local artists."
     headline := some "Arts & Culture"
     source_url := "https://huntingtonny.gov/culture"
     category := "Events"
     latitude := some (408734/10000)
     longitude := some (-734287/10000) },
   { title := "Traffic Safety Improvements on Route 25A"
     description := "New traffic calming measures being implemented on Route 25A through Huntington."
     headline := some "Public Safety Update"
     source_url := "https://huntingtonny.gov/safety"
     category := "Crime & Safety"
     latitude := some (408715/10000)
     longitude := some (-734305/10000) }]

/-- The item list a caught sub-fetch contributes: its items on return,
nothing when it raised. -/
def itemsOf : SourceOutcome → List NewsItem
  | .ok items => items
  | .exn _ => []

/-- Result of fetch_huntington_news: the returned list and the items this
function itself committed (the fallback items, when taken). -/
structure HuntFetchResult where
  returned : List NewsItem
  persisted : List NewsItem
  deriving Repr, DecidableEq

/-- NewsScraper.fetch_huntington_news: return the existing rows when there
are at least 8; otherwise collect the RSS and NewsAPI sub-fetches (each
isolated by its own try block), commit the five fallback items when fewer
than 5 items were collected, and return existing plus collected. -/
def fetch_huntington_news (existing : List NewsItem)
    (rss newsapi : SourceOutcome) : HuntFetchResult :=
  if 8 ≤ existing.length then { returned := existing, persisted := [] }
  else
    let all_items := itemsOf rss ++ itemsOf newsapi
    if all_items.length < 5 then
      let all_items := all_items ++ huntington_fallback_items
      { returned := if existing = [] then all_items else existing ++ all_items
        persisted := huntington_fallback_items }
    else
      { returned := if existing = [] then all_items else existing ++ all_items
        persisted := [] }

/-! ## Theorems -/

/-- C7: for every empty or whitespace-only input string, geocode returns
None immediately with the instance state untouched: no cache access, no
provider round trip, and, since the rate limiter only runs inside the
provider paths, no rate-limit wait. -/
theorem geocode_blank_input (gp : String → GoogleResponse) (np : String → NomResponse)
    (key : Option String) (st : GeoState) (text : String)
    (h : pyStrip text = "") :
    geocode gp np key st text = { coords := none, state := st } := by
  unfold geocode
  rw [if_pos (Or.inr h)]

/-- Witness for geocode_blank_input at the whitespace-only input. -/
theorem geocode_blank_input_witness :
    pyStrip "   " = "" ∧
    geocode (fun _ => .err) (fun _ => .err) none ⟨[], 0⟩ "   " =
      { coords := none, state := ⟨[], 0⟩ } :=
  ⟨by decide, geocode_blank_input _ _ _ _ _ (by decide)⟩

/-- C6 counterexample: on a fresh Geolocator with no Google key, geocoding
springfield succeeds through the Nominatim first-result fallback (the only
result is in California, so nothing is cached), and a second call with the
same text issues a second provider round trip instead of hitting the
cache. -/
theorem geocode_second_call_not_cached_counterexample :
    (geocode (fun _ => .err) (fun _ => .items [⟨34, -118, "California"⟩])
        none ⟨[], 0⟩ "springfield").coords.isSome = true ∧
    (geocode (fun _ => .err) (fun _ => .items [⟨34, -118, "California"⟩])
        none
        (geocode (fun _ => .err) (fun _ => .items [⟨34, -118, "California"⟩])
          none ⟨[], 0⟩ "springfield").state
        "springfield").state.providerCalls = 2 := by decide

/-- On a cache miss with no Google key, geocode is the Nominatim call. -/
theorem geocode_miss_nominatim (gp : String → GoogleResponse)
    (np : String → NomResponse) (st : GeoState) (text : String)
    (h0 : ¬ (text = "" ∨ pyStrip text = ""))
    (h1 : lookupCache st.cache (pyLower text) = none) :
    geocode gp np none st text = geocode_with_nominatim np st text true := by
  unfold geocode
  rw [if_neg h0]
  simp only [h1]

/-- On a cache miss with a Google key configured, geocode is the Google
call. -/
theorem geocode_miss_google (gp : String → GoogleResponse)
    (np : String → NomResponse) (key : String) (st : GeoState) (text : String)
    (h0 : ¬ (text = "" ∨ pyStrip text = ""))
    (h1 : lookupCache st.cache (pyLower text) = none) :
    geocode gp np (some key) st text = geocode_with_google gp st text true := by
  unfold geocode
  rw [if_neg h0]
  simp only [h1]

/-- A Nominatim response with a New York item: coordinates of that item,
cached under the lowercased key. -/
theorem geocode_with_nominatim_ny (np : String → NomResponse) (st : GeoState)
    (text : String) (xs : List NomItem) (item : NomItem)
    (h2 : np (biasQuery text true) = .items xs)
    (h3 : xs.find? (fun i => i.state == "New York") = some item) :
    geocode_with_nominatim np st text true =
      { coords := some (item.lat, item.lon),
        state := { cache := (pyLower text, (item.lat, item.lon)) :: st.cache,
                   providerCalls := st.providerCalls + 1 } } := by
  match xs, h2, h3 with
  | [], _, h3 => simp at h3
  | x :: xs, h2, h3 =>
      unfold geocode_with_nominatim
      simp only [h2, h3]

/-- A non-empty Nominatim response with no New York item: coordinates of
the first result, cache untouched. -/
theorem geocode_with_nominatim_fallback (np : String → NomResponse)
    (st : GeoState) (text : String) (x : NomItem) (xs : List NomItem)
    (h2 : np (biasQuery text true) = .items (x :: xs))
    (h3 : (x :: xs).find? (fun i => i.state == "New York") = none) :
    geocode_with_nominatim np st text true =
      { coords := some (x.lat, x.lon),
        state := { cache := st.cache, providerCalls := st.providerCalls + 1 } } := by
  unfold geocode_with_nominatim
  simp only [h2, h3]

/-- A Google OK response: coordinates of the first result, cached exactly
when that result passes the NY component check. -/
theorem geocode_with_google_ok (gp : String → GoogleResponse) (st : GeoState)
    (text : String) (r : GoogleItem) (rest : List GoogleItem)
    (h2 : gp (biasQuery text true) = .resp "OK" (r :: rest)) :
    geocode_with_google gp st text true =
      if googleInNY r then
        { coords := some (r.lat, r.lng),
          state := { cache := (pyLower text, (r.lat, r.lng)) :: st.cache,
                     providerCalls := st.providerCalls + 1 } }
      else
        { coords := some (r.lat, r.lng),
          state := { cache := st.cache, providerCalls := st.providerCalls + 1 } } := by
  unfold geocode_with_google
  simp only [h2]
  rw [if_pos (by simp)]

/-- The lowercased key just written is found by the next lookup. -/
theorem lookupCache_cons_self (cache : List (String × ℚ × ℚ)) (key : String)
    (c : ℚ × ℚ) : lookupCache ((key, c) :: cache) key = some c := by
  simp [lookupCache]

/-- C6 amended: on either provider, the second call with the same
normalized text is served from the cache with no further provider round
trip exactly when the first call succeeded with a result identified as New
York (Nominatim: an item whose address state is New York; Google: an NY
administrative_area_level_1 component), because only those successes are
cached; a success through the non-New-York first-result fallback leaves
the cache unchanged, so the second call performs a second provider round
trip. -/
theorem geocode_cached_iff_ny_success (gp : String → GoogleResponse)
    (np : String → NomResponse) (key : String) (st : GeoState) (text : String)
    (h0 : ¬ (text = "" ∨ pyStrip text = ""))
    (h1 : lookupCache st.cache (pyLower text) = none) :
    (∀ (xs : List NomItem) (item : NomItem),
      np (biasQuery text true) = .items xs →
      xs.find? (fun i => i.state == "New York") = some item →
      (geocode gp np none st text).coords = some (item.lat, item.lon) ∧
      geocode gp np none (geocode gp np none st text).state text =
        { coords := some (item.lat, item.lon),
          state := (geocode gp np none st text).state }) ∧
    (∀ (x : NomItem) (xs : List NomItem),
      np (biasQuery text true) = .items (x :: xs) →
      (x :: xs).find? (fun i => i.state == "New York") = none →
      (geocode gp np none st text).coords = some (x.lat, x.lon) ∧
      (geocode gp np none st text).state.cache = st.cache ∧
      (geocode gp np none (geocode gp np none st text).state text).state.providerCalls =
        st.providerCalls + 2) ∧
    (∀ (r : GoogleItem) (rest : List GoogleItem),
      gp (biasQuery text true) = .resp "OK" (r :: rest) →
      googleInNY r = true →
      (geocode gp np (some key) st text).coords = some (r.lat, r.lng) ∧
      geocode gp np (some key) (geocode gp np (some key) st text).state text =
        { coords := some (r.lat, r.lng),
          state := (geocode gp np (some key) st text).state }) ∧
    (∀ (r : GoogleItem) (rest : List GoogleItem),
      gp (biasQuery text true) = .resp "OK" (r :: rest) →
      googleInNY r = false →
      (geocode gp np (some key) st text).coords = some (r.lat, r.lng) ∧
      (geocode gp np (some key) st text).state.cache = st.cache ∧
      (geocode gp np (some key) (geocode gp np (some key) st text).state text).state.providerCalls =
        st.providerCalls + 2) := by
  refine ⟨?_, ?_, ?_, ?_⟩
  · intro xs item h2 h3
    have hfirst : geocode gp np none st text =
        { coords := some (item.lat, item.lon),
          state := { cache := (pyLower text, (item.lat, item.lon)) :: st.cache,
                     providerCalls := st.providerCalls + 1 } } := by
      rw [geocode_miss_nominatim gp np st text h0 h1,
        geocode_with_nominatim_ny np st text xs item h2 h3]
    refine ⟨by rw [hfirst], ?_⟩
    rw [hfirst]
    unfold geocode
    rw [if_neg h0]
    simp only [lookupCache_cons_self]
  · intro x xs h2 h3
    have hfirst : geocode gp np none st text =
        { coords := some (x.lat, x.lon),
          state := { cache := st.cache, providerCalls := st.providerCalls + 1 } } := by
      rw [geocode_miss_nominatim gp np st text h0 h1,
        geocode_with_nominatim_fallback np st text x xs h2 h3]
    refine ⟨by rw [hfirst], by rw [hfirst], ?_⟩
    rw [hfirst]
    dsimp only
    rw [geocode_miss_nominatim gp np
        { cache := st.cache, providerCalls := st.providerCalls + 1 } text h0 h1,
      geocode_with_nominatim_fallback np
        { cache := st.cache, providerCalls := st.providerCalls + 1 } text x xs h2 h3]
  · intro r rest h2 hny
    have hfirst : geocode gp np (some key) st text =
        { coords := some (r.lat, r.lng),
          state := { cache := (pyLower text, (r.lat, r.lng)) :: st.cache,
                     providerCalls := st.providerCalls + 1 } } := by
      rw [geocode_miss_google gp np key st text h0 h1,
        geocode_with_google_ok gp st text r rest h2, if_pos hny]
    refine ⟨by rw [hfirst], ?_⟩
    rw [hfirst]
    unfold geocode
    rw [if_neg h0]
    simp only [lookupCache_cons_self]
  · intro r rest h2 hny
    have hfirst : geocode gp np (some key) st text =
        { coords := some (r.lat, r.lng),
          state := { cache := st.cache, providerCalls := st.providerCalls + 1 } } := by
      rw [geocode_miss_google gp np key st text h0 h1,
        geocode_with_google_ok gp st text r rest h2, if_neg (by rw [hny]; exact Bool.false_ne_true)]
    refine ⟨by rw [hfirst], by rw [hfirst], ?_⟩
    rw [hfirst]
    dsimp only
    rw [geocode_miss_google gp np key
        { cache := st.cache, providerCalls := st.providerCalls + 1 } text h0 h1,
      geocode_with_google_ok gp
        { cache := st.cache, providerCalls := st.providerCalls + 1 } text r rest h2,
      if_neg (by rw [hny]; exact Bool.false_ne_true)]

/-- Witness for geocode_cached_iff_ny_success: a Nominatim provider that
returns a New York item makes the second call a pure cache hit. -/
theorem geocode_cached_iff_ny_success_witness :
    (¬ ("centerport" = "" ∨ pyStrip "centerport" = "")) ∧
    lookupCache ([] : List (String × ℚ × ℚ)) (pyLower "centerport") = none ∧
    ((geocode (fun _ => .err) (fun _ => .items [⟨409, -733, "New York"⟩])
        none ⟨[], 0⟩ "centerport").coords = some (409, -733) ∧
      geocode (fun _ => .err) (fun _ => .items [⟨409, -733, "New York"⟩]) none
          (geocode (fun _ => .err) (fun _ => .items [⟨409, -733, "New York"⟩])
            none ⟨[], 0⟩ "centerport").state "centerport" =
        { coords := some (409, -733),
          state := (geocode (fun _ => .err) (fun _ => .items [⟨409, -733, "New York"⟩])
            none ⟨[], 0⟩ "centerport").state }) :=
  ⟨by decide, by decide,
    (geocode_cached_iff_ny_success (fun _ => .err)
      (fun _ => .items [⟨409, -733, "New York"⟩]) "key" ⟨[], 0⟩ "centerport"
      (by decide) (by decide)).1
      [⟨409, -733, "New York"⟩] ⟨409, -733, "New York"⟩ (by decide) (by decide)⟩

/-- Every periodic per-source update is written with in_progress status. -/
theorem interUpdates_status_in_progress (total : Nat) :
    ∀ (l : List (String × SourceOutcome)) (rs : RunState) (u : UpdateCall),
      u ∈ interUpdates total rs l → u.status = "in_progress" := by
  intro l
  induction l with
  | nil => intro rs u hu; simp [interUpdates] at hu
  | cons s rest ih =>
      intro rs u hu
      rw [interUpdates, List.mem_cons] at hu
      rcases hu with h | h
      · rw [h]
      · exact ih _ u h

/-- C2: in a run over at least one source, the last log update carries the
final error counter, its status is completed exactly when that counter is
zero and completed_with_errors otherwise, every earlier update is an
in_progress one, and _update_log stamps the end time exactly on the two
terminal statuses and never on an in_progress update. -/
theorem run_scrape_terminal_status (sources : List (String × SourceOutcome))
    (h : sources ≠ []) :
    ∃ final, (run_scrape sources).getLast? = some final ∧
      final.errors = (sources.foldl sourceStep ⟨0, 0, []⟩).errors ∧
      (final.status = "completed" ↔ final.errors = 0) ∧
      (final.status = "completed" ∨ final.status = "completed_with_errors") ∧
      (∀ u ∈ (run_scrape sources).dropLast, u.status = "in_progress") ∧
      (∀ u ∈ run_scrape sources, ∀ (log : ScrapeLogRow) (now : Nat),
        (update_log log now u.status u.total u.successful u.errors u.details).end_time =
          if u.status = "completed" ∨ u.status = "completed_with_errors"
          then some now else log.end_time) := by
  have hrs : run_scrape sources =
      (⟨"in_progress", sources.length, 0, 0, "Scraping in progress"⟩ ::
        interUpdates sources.length ⟨0, 0, []⟩ sources) ++
      [⟨if (sources.foldl sourceStep ⟨0, 0, []⟩).errors = 0 then "completed"
          else "completed_with_errors",
        sources.length, (sources.foldl sourceStep ⟨0, 0, []⟩).successful,
        (sources.foldl sourceStep ⟨0, 0, []⟩).errors,
        String.intercalate "\n" (sources.foldl sourceStep ⟨0, 0, []⟩).log_details⟩] := by
    rw [run_scrape, if_neg h]
  refine ⟨_, by rw [hrs, List.getLast?_concat], rfl, ?_, ?_, ?_⟩
  · constructor
    · intro hc
      by_contra hne
      rw [if_neg hne] at hc
      have hc2 : ("completed_with_errors" : String) = "completed" := hc
      exact absurd hc2 (by decide)
    · intro hz
      show (if _ then _ else _) = _
      rw [if_pos hz]
  · by_cases hz : (sources.foldl sourceStep ⟨0, 0, []⟩).errors = 0
    · left
      show (if _ then _ else _) = _
      rw [if_pos hz]
    · right
      show (if _ then _ else _) = _
      rw [if_neg hz]
  · constructor
    · intro u hu
      rw [hrs, List.dropLast_concat, List.mem_cons] at hu
      rcases hu with h1 | h1
      · rw [h1]
      · exact interUpdates_status_in_progress _ _ _ u h1
    · intro u _ log now
      rfl

/-- Witness for run_scrape_terminal_status on a one-source run whose
source raises. -/
theorem run_scrape_terminal_status_witness :
    ([("s", SourceOutcome.exn "boom")] ≠ ([] : List (String × SourceOutcome))) ∧
    (∃ final, (run_scrape [("s", SourceOutcome.exn "boom")]).getLast? = some final ∧
      final.errors = ([("s", SourceOutcome.exn "boom")].foldl sourceStep ⟨0, 0, []⟩).errors ∧
      (final.status = "completed" ↔ final.errors = 0) ∧
      (final.status = "completed" ∨ final.status = "completed_with_errors") ∧
      (∀ u ∈ (run_scrape [("s", SourceOutcome.exn "boom")]).dropLast,
        u.status = "in_progress") ∧
      (∀ u ∈ run_scrape [("s", SourceOutcome.exn "boom")],
        ∀ (log : ScrapeLogRow) (now : Nat),
        (update_log log now u.status u.total u.successful u.errors u.details).end_time =
          if u.status = "completed" ∨ u.status = "completed_with_errors"
          then some now else log.end_time)) :=
  ⟨by decide, run_scrape_terminal_status _ (by decide)⟩

/-- C3: a source whose processing raises increments the error counter by
exactly one, leaves the success counter unchanged, appends the error line
whose variable part is str(e) truncated to at most 200 characters, and the
fold over the full source list continues over the remaining sources from
the post-exception state — the exception is absorbed inside the loop, so
run_scrape never aborts on it. -/
theorem run_scrape_exception_isolated (l r : List (String × SourceOutcome))
    (name msg : String) :
    (sourceStep (l.foldl sourceStep ⟨0, 0, []⟩) (name, .exn msg)).errors =
      (l.foldl sourceStep ⟨0, 0, []⟩).errors + 1 ∧
    (sourceStep (l.foldl sourceStep ⟨0, 0, []⟩) (name, .exn msg)).successful =
      (l.foldl sourceStep ⟨0, 0, []⟩).successful ∧
    (sourceStep (l.foldl sourceStep ⟨0, 0, []⟩) (name, .exn msg)).log_details =
      (l.foldl sourceStep ⟨0, 0, []⟩).log_details ++
        ["Processing: " ++ name, "✗ " ++ name ++ ": Error - " ++ pyTruncate msg 200] ∧
    (pyTruncate msg 200).length ≤ 200 ∧
    (l ++ (name, .exn msg) :: r).foldl sourceStep ⟨0, 0, []⟩ =
      r.foldl sourceStep (sourceStep (l.foldl sourceStep ⟨0, 0, []⟩) (name, .exn msg)) := by
  refine ⟨rfl, rfl, rfl, pyTruncate_length_le msg 200, ?_⟩
  rw [List.foldl_append]
  rfl

/-- C10: a source that returns without raising but with an empty item list
is counted as an error and not as a success, and a run whose only source
does so ends with status completed_with_errors although no source raised. -/
theorem run_scrape_empty_result_counts_as_error :
    (∀ (rs : RunState) (name : String),
        (sourceStep rs (name, .ok [])).errors = rs.errors + 1 ∧
        (sourceStep rs (name, .ok [])).successful = rs.successful) ∧
    (∃ sources : List (String × SourceOutcome),
        (∀ s ∈ sources, ∀ msg, s.2 ≠ .exn msg) ∧
        ∃ final, (run_scrape sources).getLast? = some final ∧
          final.status = "completed_with_errors") := by
  refine ⟨fun rs name => ⟨rfl, rfl⟩, ⟨[("s", .ok [])], ?_, ⟨_, rfl, rfl⟩⟩⟩
  intro s hs msg
  rw [List.mem_singleton] at hs
  subst hs
  exact fun hcontra => SourceOutcome.noConfusion hcontra

/-- C9: when fewer than 8 rows already exist and the RSS and NewsAPI
sub-fetches contribute fewer than 5 items together, fetch_huntington_news
commits exactly the five hard-coded fallback items and every one of them
appears in the returned list. -/
theorem fetch_huntington_news_fallback (existing : List NewsItem)
    (rss newsapi : SourceOutcome)
    (h1 : existing.length < 8)
    (h2 : (itemsOf rss).length + (itemsOf newsapi).length < 5) :
    (fetch_huntington_news existing rss newsapi).persisted = huntington_fallback_items ∧
    huntington_fallback_items.length = 5 ∧
    ∀ item ∈ huntington_fallback_items,
      item ∈ (fetch_huntington_news existing rss newsapi).returned := by
  have hno8 : ¬ 8 ≤ existing.length := by omega
  have hlt5 : (itemsOf rss ++ itemsOf newsapi).length < 5 := by
    rw [List.length_append]; exact h2
  unfold fetch_huntington_news
  rw [if_neg hno8, if_pos hlt5]
  refine ⟨rfl, rfl, ?_⟩
  intro item hitem
  show item ∈
    (if existing = [] then itemsOf rss ++ itemsOf newsapi ++ huntington_fallback_items
     else existing ++ (itemsOf rss ++ itemsOf newsapi ++ huntington_fallback_items))
  split
  · exact List.mem_append_right _ hitem
  · exact List.mem_append_right _ (List.mem_append_right _ hitem)

/-- Witness for fetch_huntington_news_fallback with an empty store and
empty sub-fetches. -/
theorem fetch_huntington_news_fallback_witness :
    ([] : List NewsItem).length < 8 ∧
    (itemsOf (.ok [])).length + (itemsOf (.ok [])).length < 5 ∧
    ((fetch_huntington_news [] (.ok []) (.ok [])).persisted = huntington_fallback_items ∧
      huntington_fallback_items.length = 5 ∧
      ∀ item ∈ huntington_fallback_items,
        item ∈ (fetch_huntington_news [] (.ok []) (.ok [])).returned) :=
  ⟨by decide, by decide,
    fetch_huntington_news_fallback [] (.ok []) (.ok []) (by decide) (by decide)⟩

/-- Any item the RSS entry body commits carries coordinates: the only
branch that builds an item sets both fields to some. -/
theorem scrapeRssEntry_coords (cat : String) (e : RssEntry) (ext : ExtractionResult)
    (geo : Option (ℚ × ℚ)) (item : NewsItem)
    (h : scrapeRssEntry cat e ext geo = some item) :
    item.latitude.isSome ∧ item.longitude.isSome := by
  unfold scrapeRssEntry at h
  rcases geo with _ | ⟨lat, lng⟩
  all_goals repeat' split at h
  all_goals
    first
      | (simp only [Option.some.injEq] at h
         rw [← h]
         exact ⟨rfl, rfl⟩)
      | exact absurd h (by simp)

/-- Any item the website article body commits carries coordinates. -/
theorem scrapeWebsiteArticle_coords (cat : String) (a : WebArticle)
    (ext : ExtractionResult) (geo : Option (ℚ × ℚ)) (item : NewsItem)
    (h : scrapeWebsiteArticle cat a ext geo = some item) :
    item.latitude.isSome ∧ item.longitude.isSome := by
  unfold scrapeWebsiteArticle at h
  rcases geo with _ | ⟨lat, lng⟩
  all_goals repeat' split at h
  all_goals
    first
      | (simp only [Option.some.injEq] at h
         rw [← h]
         exact ⟨rfl, rfl⟩)
      | exact absurd h (by simp)

/-- Any item the NewsAPI article body commits carries coordinates. -/
theorem newsapiArticle_coords (a : ApiArticle) (ext : ExtractionResult)
    (geo1 geo2 : Option (ℚ × ℚ)) (item : NewsItem)
    (h : newsapiArticle a ext geo1 geo2 = some item) :
    item.latitude.isSome ∧ item.longitude.isSome := by
  unfold newsapiArticle at h
  rcases geo1 with _ | ⟨lat1, lng1⟩ <;> rcases geo2 with _ | ⟨lat2, lng2⟩
  all_goals repeat' split at h
  all_goals
    first
      | (simp only [Option.some.injEq] at h
         rw [← h]
         exact ⟨rfl, rfl⟩)
      | exact absurd h (by simp)

/-- Invariant of the fetch_from_rss_feeds save loop: items in the saved
accumulator all carry coordinates, and every article it saves does too
because rssArticleToItem always wraps the article floats in some. -/
theorem rssSaveStep_fold_coords (articles : List RssArticle) :
    ∀ (db saved : List NewsItem),
      (∀ item ∈ saved, item.latitude.isSome ∧ item.longitude.isSome) →
      ∀ item ∈ (articles.foldl rssSaveStep (db, saved)).2,
        item.latitude.isSome ∧ item.longitude.isSome := by
  induction articles with
  | nil => intro db saved hs item hitem; exact hs item hitem
  | cons a rest ih =>
      intro db saved hs
      rw [List.foldl_cons, rssSaveStep]
      split
      · exact ih db saved hs
      · refine ih _ _ ?_
        intro item hitem
        rcases List.mem_append.mp hitem with h1 | h1
        · exact hs item h1
        · rw [List.mem_singleton] at h1
          rw [h1]
          exact ⟨rfl, rfl⟩

/-- C1: every record persisted by any of the four persistence paths —
_scrape_rss, _scrape_website, fetch_from_newsapi (all of which skip an
entry without coordinates) and fetch_from_rss_feeds (whose RSS service
articles always carry the coordinates produced by the total
_get_location_coordinates) — has non-null latitude and longitude. -/
theorem pipeline_persists_only_with_coordinates (cat : String)
    (rssEntries : List (RssEntry × ExtractionResult × Option (ℚ × ℚ)))
    (webArticles : List (WebArticle × ExtractionResult × Option (ℚ × ℚ)))
    (apiArticles : List (ApiArticle × ExtractionResult × Option (ℚ × ℚ) × Option (ℚ × ℚ)))
    (dbItems : List NewsItem) (articles : List RssArticle) :
    ∀ item ∈ scrape_rss cat rssEntries ++ scrape_website cat webArticles ++
        fetch_from_newsapi apiArticles ++ fetch_from_rss_feeds dbItems articles,
      item.latitude.isSome ∧ item.longitude.isSome := by
  intro item hitem
  rcases List.mem_append.mp hitem with h | h
  · rcases List.mem_append.mp h with h | h
    · rcases List.mem_append.mp h with h | h
      · obtain ⟨x, _, hx⟩ := List.mem_filterMap.mp h
        exact scrapeRssEntry_coords cat x.1 x.2.1 x.2.2 item hx
      · obtain ⟨x, _, hx⟩ := List.mem_filterMap.mp h
        exact scrapeWebsiteArticle_coords cat x.1 x.2.1 x.2.2 item hx
    · obtain ⟨x, _, hx⟩ := List.mem_filterMap.mp h
      exact newsapiArticle_coords x.1 x.2.1 x.2.2.1 x.2.2.2 item hx
  · exact rssSaveStep_fold_coords articles dbItems [] (by intro i hi; simp at hi) item h

/-- Witness for pipeline_persists_only_with_coordinates: one RSS entry
whose extraction carries a location that geocodes successfully. -/
theorem pipeline_persists_only_with_coordinates_witness :
    ({ title := "t", headline := none, description := "c", summary := "s",
       category := "News", latitude := some 1, longitude := some 2,
       source_url := "url", location := none, source_name := none,
       confidence_score := 1/2 } : NewsItem) ∈
      scrape_rss "News" [(⟨"t", "url", "s", "c"⟩, { location := some "x" }, some (1, 2))] ++
        scrape_website "News" [] ++ fetch_from_newsapi [] ++ fetch_from_rss_feeds [] [] ∧
    (({ title := "t", headline := none, description := "c", summary := "s",
        category := "News", latitude := some 1, longitude := some 2,
        source_url := "url", location := none, source_name := none,
        confidence_score := 1/2 } : NewsItem).latitude.isSome ∧
      ({ title := "t", headline := none, description := "c", summary := "s",
         category := "News", latitude := some 1, longitude := some 2,
         source_url := "url", location := none, source_name := none,
         confidence_score := 1/2 } : NewsItem).longitude.isSome) :=
  ⟨by
    have h1 : scrape_rss "News"
        [(⟨"t", "url", "s", "c"⟩, { location := some "x" }, some (1, 2))] =
        [{ title := "t", headline := none, description := "c", summary := "s",
           category := "News", latitude := some 1, longitude := some 2,
           source_url := "url", location := none, source_name := none,
           confidence_score := 1/2 }] := rfl
    exact List.mem_append_left _ (List.mem_append_left _ (List.mem_append_left _
      (by rw [h1]; exact List.mem_singleton.mpr rfl))),
   pipeline_persists_only_with_coordinates "News"
      [(⟨"t", "url", "s", "c"⟩, { location := some "x" }, some (1, 2))] [] [] [] [] _
      (by
        have h1 : scrape_rss "News"
            [(⟨"t", "url", "s", "c"⟩, { location := some "x" }, some (1, 2))] =
            [{ title := "t", headline := none, description := "c", summary := "s",
               category := "News", latitude := some 1, longitude := some 2,
               source_url := "url", location := none, source_name := none,
               confidence_score := 1/2 }] := rfl
        exact List.mem_append_left _ (List.mem_append_left _ (List.mem_append_left _
          (by rw [h1]; exact List.mem_singleton.mpr rfl))))⟩

/-- The similarity test is the strict Jaccard comparison whenever both
word sets are non-empty. -/
theorem titles_are_similar_iff (t1 t2 : String)
    (h1 : titleWords t1 ≠ []) (h2 : titleWords t2 ≠ []) :
    titles_are_similar t1 t2 = true ↔ jaccardSimilarity t1 t2 > 3/5 := by
  unfold titles_are_similar
  rw [if_neg]
  · exact decide_eq_true_iff
  · rintro (hz | hz)
    · exact h1 (List.length_eq_zero.mp hz)
    · exact h2 (List.length_eq_zero.mp hz)

/-- Deduplication of a two-article batch reduces to one similarity test of
the second simplified title against the first. -/
theorem remove_duplicates_pair (a b : RssArticle) :
    remove_duplicates [a, b] =
      if titles_are_similar (simpleTitle b.title) (simpleTitle a.title) then [a]
      else [a, b] := by
  unfold remove_duplicates
  simp only [List.foldl_cons, List.foldl_nil, List.any_nil, Bool.false_eq_true,
    if_false, List.nil_append, List.any_cons, Bool.or_false]
  split <;> rfl

/-- C4 counterexample: two titles whose token sets have Jaccard similarity
exactly 0.6 (3 shared tokens, union of 5) are both kept, because the code
tests similarity with a strict greater-than against 0.6; the claim that
similarity at or above 0.6 collapses the pair to one fails at this input. -/
theorem remove_duplicates_at_threshold_counterexample :
    jaccardSimilarity
      (simpleTitle "beta gamma delta epsilon") (simpleTitle "alpha beta gamma delta") = 3/5 ∧
    remove_duplicates
      [⟨"alpha beta gamma delta", "u1", "s1", "News", "Patch.com", 1, 2, "L"⟩,
       ⟨"beta gamma delta epsilon", "u2", "s2", "News", "Patch.com", 3, 4, "L"⟩] =
      [⟨"alpha beta gamma delta", "u1", "s1", "News", "Patch.com", 1, 2, "L"⟩,
       ⟨"beta gamma delta epsilon", "u2", "s2", "News", "Patch.com", 3, 4, "L"⟩] := by
  have hi : interCard (titleWords (simpleTitle "beta gamma delta epsilon"))
      (titleWords (simpleTitle "alpha beta gamma delta")) = 3 := by decide
  have hu : unionCard (titleWords (simpleTitle "beta gamma delta epsilon"))
      (titleWords (simpleTitle "alpha beta gamma delta")) = 5 := by decide
  have hj : jaccardSimilarity
      (simpleTitle "beta gamma delta epsilon") (simpleTitle "alpha beta gamma delta") = 3/5 := by
    rw [jaccardSimilarity, hi, hu]
    norm_num
  refine ⟨hj, ?_⟩
  rw [remove_duplicates_pair]
  have hsim : titles_are_similar
      (simpleTitle "beta gamma delta epsilon") (simpleTitle "alpha beta gamma delta") = false := by
    unfold titles_are_similar
    rw [if_neg (by decide)]
    exact decide_eq_false (by rw [hj]; exact lt_irrefl _)
  rw [hsim]
  rfl

/-- C4 amended: in a two-candidate batch the later candidate is rejected
exactly when the Jaccard similarity of the simplified titles is strictly
greater than 0.6; at similarity 0.6 or lower (hence in particular at 0.59)
both candidates are kept. -/
theorem remove_duplicates_strict_threshold (a b : RssArticle)
    (h1 : titleWords (simpleTitle a.title) ≠ [])
    (h2 : titleWords (simpleTitle b.title) ≠ []) :
    (jaccardSimilarity (simpleTitle b.title) (simpleTitle a.title) > 3/5 →
       remove_duplicates [a, b] = [a]) ∧
    (jaccardSimilarity (simpleTitle b.title) (simpleTitle a.title) ≤ 3/5 →
       remove_duplicates [a, b] = [a, b]) := by
  rw [remove_duplicates_pair]
  constructor
  · intro hj
    rw [if_pos ((titles_are_similar_iff _ _ h2 h1).mpr hj)]
  · intro hj
    rw [if_neg]
    intro hsim
    exact absurd ((titles_are_similar_iff _ _ h2 h1).mp hsim) (not_lt.mpr hj)

/-- Witness for remove_duplicates_strict_threshold: identical titles have
similarity 1 and the pair collapses; disjoint titles have similarity 0 and
both are kept. -/
theorem remove_duplicates_strict_threshold_witness :
    titleWords (simpleTitle "school fair saturday") ≠ [] ∧
    titleWords (simpleTitle "school fair saturday update") ≠ [] ∧
    (jaccardSimilarity (simpleTitle "school fair saturday update")
        (simpleTitle "school fair saturday") > 3/5 →
      remove_duplicates
        [⟨"school fair saturday", "u1", "s1", "News", "Patch.com", 1, 2, "L"⟩,
         ⟨"school fair saturday update", "u2", "s2", "News", "Patch.com", 3, 4, "L"⟩] =
        [⟨"school fair saturday", "u1", "s1", "News", "Patch.com", 1, 2, "L"⟩]) ∧
    jaccardSimilarity (simpleTitle "school fair saturday update")
        (simpleTitle "school fair saturday") > 3/5 := by
  have hi : interCard (titleWords (simpleTitle "school fair saturday update"))
      (titleWords (simpleTitle "school fair saturday")) = 3 := by decide
  have hu : unionCard (titleWords (simpleTitle "school fair saturday update"))
      (titleWords (simpleTitle "school fair saturday")) = 4 := by decide
  have hj : jaccardSimilarity (simpleTitle "school fair saturday update")
      (simpleTitle "school fair saturday") > 3/5 := by
    rw [jaccardSimilarity, hi, hu]
    norm_num
  exact ⟨by decide, by decide,
    (remove_duplicates_strict_threshold
      ⟨"school fair saturday", "u1", "s1", "News", "Patch.com", 1, 2, "L"⟩
      ⟨"school fair saturday update", "u2", "s2", "News", "Patch.com", 3, 4, "L"⟩
      (by decide) (by decide)).1, hj⟩

/-- C5 counterexample: when the provider response parses as JSON,
extract_information returns the dict unvalidated, and _scrape_rss stores
its category verbatim: an extraction result with category Politics is
persisted with category Politics, not News. -/
theorem category_not_coerced_counterexample :
    (scrape_rss "News"
      [(⟨"t", "url", "s", "c"⟩,
        extract_information true false (fun _ => none) "raw text" "url"
          (.json { category := some "Politics", location := some "Huntington, NY" }),
        some (408676/10000, -734257/10000))]).map (fun it => it.category) = ["Politics"] ∧
    "Politics" ∉ valid_categories :=
  ⟨rfl, by decide⟩

/-- One fallback-parser step keeps the category inside the valid list. -/
theorem structuredStep_category_valid (pf : String → Option ℚ)
    (r : ExtractionResult) (line : String)
    (hr : ∃ c, r.category = some c ∧ c ∈ valid_categories) :
    ∃ c, (structuredStep pf r line).category = some c ∧ c ∈ valid_categories := by
  unfold structuredStep
  dsimp only
  repeat' split
  all_goals try exact hr
  · rename_i hcat
    exact ⟨_, rfl, List.mem_of_elem_eq_true hcat⟩
  · exact ⟨"News", rfl, by decide⟩

/-- The fallback-parser fold keeps the category inside the valid list. -/
theorem structured_fold_category_valid (pf : String → Option ℚ) :
    ∀ (lines : List String) (r : ExtractionResult),
      (∃ c, r.category = some c ∧ c ∈ valid_categories) →
      ∃ c, (lines.foldl (structuredStep pf) r).category = some c ∧
        c ∈ valid_categories := by
  intro lines
  induction lines with
  | nil => intro r hr; exact hr
  | cons l rest ih =>
      intro r hr
      rw [List.foldl_cons]
      exact ih _ (structuredStep_category_valid pf r l hr)

/-- C5 amended: the coercion of unrecognized categories to News happens
only on the line-prefix fallback taken when the provider response fails
JSON parsing: every result of that fallback carries a category from the
valid list, and a Category line holding Politics yields News there; a
successfully parsed JSON response is returned with its category
unvalidated. -/
theorem extract_structured_data_category_coerced (pf : String → Option ℚ)
    (lines : List String) (url : String) :
    (∃ c, (extract_structured_data pf lines url).category = some c ∧
       c ∈ valid_categories) ∧
    (extract_structured_data pf ["Category: Politics"] url).category = some "News" ∧
    (∀ r : ExtractionResult, process_with_provider pf (.json r) url = r) := by
  refine ⟨?_, rfl, fun r => rfl⟩
  unfold extract_structured_data
  dsimp only
  exact structured_fold_category_valid pf lines _ ⟨"News", rfl, by decide⟩

/-- C8: _get_location_coordinates is total — it always hands back a
coordinate pair — and on a cache miss where the geopy call raises or finds
no match it returns exactly the fixed default Huntington coordinates
(40.8676, -73.4257) with the cache unchanged; consequently the Patch entry
processor always produces an article whose coordinates are that total
result, so no article on this path is dropped for a geocoding failure. -/
theorem get_location_coordinates_total (cache : List (String × ℚ × ℚ))
    (location : String)
    (hmiss : lookupCache cache (pyLower location) = none) :
    (∀ geopy : String → GeopyOutcome,
      (geopy (rssSearchLocation location) = .notFound ∨
       geopy (rssSearchLocation location) = .raise) →
      get_location_coordinates cache location geopy = (rss_default_coords, cache)) ∧
    rss_default_coords = (408676/10000, -734257/10000) ∧
    (∀ (geopy : String → GeopyOutcome) (e : PatchEntry),
      (process_patch_entry e location cache geopy).1.latitude =
        (get_location_coordinates cache location geopy).1.1 ∧
      (process_patch_entry e location cache geopy).1.longitude =
        (get_location_coordinates cache location geopy).1.2) := by
  refine ⟨?_, rfl, fun geopy e => ⟨rfl, rfl⟩⟩
  intro geopy hfail
  unfold get_location_coordinates
  rw [hmiss]
  rcases hfail with hf | hf <;> rw [hf]

/-- Witness for get_location_coordinates_total at an empty cache and a
geocoder that raises. -/
theorem get_location_coordinates_total_witness :
    lookupCache ([] : List (String × ℚ × ℚ)) (pyLower "centerport village") = none ∧
    ((∀ geopy : String → GeopyOutcome,
      (geopy (rssSearchLocation "centerport village") = .notFound ∨
       geopy (rssSearchLocation "centerport village") = .raise) →
      get_location_coordinates [] "centerport village" geopy = (rss_default_coords, [])) ∧
    rss_default_coords = (408676/10000, -734257/10000) ∧
    (∀ (geopy : String → GeopyOutcome) (e : PatchEntry),
      (process_patch_entry e "centerport village" [] geopy).1.latitude =
        (get_location_coordinates [] "centerport village" geopy).1.1 ∧
      (process_patch_entry e "centerport village" [] geopy).1.longitude =
        (get_location_coordinates [] "centerport village" geopy).1.2)) :=
  ⟨by decide, get_location_coordinates_total [] "centerport village" (by decide)⟩
